import Mathlib

/-!
Shallow embedding of the weather-prediction logic of the Lab3 repository
(src/Lab3/phase3.py and src/Lab3/actualphase4.py), together with the parts of
the consolidated prediction core that the specification describes but that do
not appear under src/ (the Date Horizon Classifier, the Trend Predictor, the
per-year Climatology Predictor and the dispatch between them).  Temperatures
are modelled as rationals, HTTP/JSON outcomes as explicit sum types, and
fallible code as Option/Except values.
-/

namespace Lab3

/-! ## Geocoding: actualphase4.py, geocode_city (lines 22-53) -/

/-- One entry of the geocoding API results list.  The `population` field is
`none` when absent (the source reads it with `.get("population", 0)`, so an
absent field behaves as 0); `latitude` and `longitude` are read with `.get`,
hence optional as well. -/
structure Candidate where
  name : String
  population : Option Nat
  latitude : Option ℚ
  longitude : Option ℚ
deriving Repr, DecidableEq

/-- The population the selection loop sees for a candidate:
`city_data.get("population", 0)`. -/
def Candidate.pop (c : Candidate) : Nat := c.population.getD 0

/-- Outcome of the geocoding HTTP request as `geocode_city` observes it: a
transport error (`requests.exceptions.RequestException`, which includes the
timeout and `raise_for_status` paths), a JSON decoding error, or a parsed
body whose results key may be absent. -/
inductive GeoResponse where
  | requestError (msg : String)
  | jsonError (msg : String)
  | ok (results : Option (List Candidate))
deriving Repr, DecidableEq

/-- One iteration of the selection loop of `geocode_city` (actualphase4.py
lines 44-48): the accumulator is the pair of `best_match` and
`max_population`, and a candidate replaces the accumulator exactly when its
population is strictly greater than `max_population`. -/
def selectStep : Option Candidate × Int → Candidate → Option Candidate × Int
  | (best, maxPop), c =>
    if (c.pop : Int) > maxPop then (some c, (c.pop : Int)) else (best, maxPop)

/-- The whole selection loop of `geocode_city`, started from
`best_match = None` and `max_population = -1` (actualphase4.py lines 41-48). -/
def selectBest (cs : List Candidate) : Option Candidate :=
  (cs.foldl selectStep (none, -1)).1

/-- Embedding of `geocode_city` (actualphase4.py lines 22-53).  Every failure
path returns the pair of two `none`s; the function is total, mirroring that
the Python function catches its exceptions and never raises. -/
def geocode_city : GeoResponse → Option ℚ × Option ℚ
  | .requestError _ => (none, none)
  | .jsonError _ => (none, none)
  | .ok none => (none, none)
  | .ok (some results) =>
    if results.length = 0 then (none, none)
    else
      match selectBest results with
      | none => (none, none)
      | some best => (best.latitude, best.longitude)

/-! ## Geocoding: phase3.py (lines 33-43) -/

/-- Result of the phase3.py geocoding step (lines 33-43): `stopped` models the
`st.error` plus `st.stop` path taken when the body has no results key,
`crashed` models the uncaught IndexError of indexing position 0 of an empty
results list, and `located c` is the normal path, which always takes the
FIRST candidate of the list. -/
inductive Phase3GeoResult where
  | stopped
  | crashed
  | located (c : Candidate)
deriving Repr, DecidableEq

/-- Embedding of the phase3.py geocoding step (lines 33-43); the input is
`none` when the parsed body has no results key. -/
def phase3_geocode : Option (List Candidate) → Phase3GeoResult
  | none => .stopped
  | some [] => .crashed
  | some (c :: _) => .located c

/-! ## Historical statistics: phase3.py (lines 53-65) -/

/-- Result of the phase3.py weather-statistics step (lines 53-65):
`noDataStop` models the `st.error` plus `st.stop` path taken when the body has
no daily key; `zeroDivCrash` models the uncaught ZeroDivisionError of
`sum(temps) / len(temps)` on an empty temperature list; `stats avg lo hi`
carries the computed average, minimum and maximum. -/
inductive Phase3WeatherResult where
  | noDataStop
  | zeroDivCrash
  | stats (avg lo hi : ℚ)
deriving Repr, DecidableEq

/-- Embedding of the phase3.py statistics step (lines 53-65): the input is
`none` when the archive response has no daily key, otherwise the
`temperature_2m_mean` list. -/
def phase3_weather_stats : Option (List ℚ) → Phase3WeatherResult
  | none => .noDataStop
  | some [] => .zeroDivCrash
  | some (t :: ts) =>
    .stats ((t :: ts).sum / ((t :: ts).length : ℚ)) (ts.foldl min t) (ts.foldl max t)

/-! ## Climatology Predictor -/

/-- Modelled from the spec: the per-year window average of the Climatology
Predictor (spec section 4.3).  The per-year fetch-and-skip loop is in none of
the src/ files (phase3.py performs a single 20-year fetch instead); a year is
`none` when its fetch failed and is skipped, and a successful year with an
empty window contributes no usable data either. -/
def perYearAvg : Option (List ℚ) → Option ℚ
  | none => none
  | some [] => none
  | some (t :: ts) => some ((t :: ts).sum / ((t :: ts).length : ℚ))

/-- The distinguishable failure of the Climatology Predictor (spec sections
4.3 and 7). -/
inductive ClimError where
  | insufficientHistory
deriving Repr, DecidableEq

/-- Aggregate statistics of a climatology prediction (the numeric part of the
PredictionResult of spec section 3). -/
structure Aggregate where
  point_estimate : ℚ
  range_low : ℚ
  range_high : ℚ
deriving Repr, DecidableEq

/-- Aggregation over the successful per-year averages, the arithmetic
transcribed from phase3.py lines 63-65 (`sum(temps) / len(temps)`,
`min(temps)`, `max(temps)`), except that the empty case is the distinguishable
insufficient-history failure the spec requires instead of a crash. -/
def aggregate : List ℚ → Except ClimError Aggregate
  | [] => .error .insufficientHistory
  | a :: as =>
    .ok ⟨(a :: as).sum / ((a :: as).length : ℚ), as.foldl min a, as.foldl max a⟩

/-- Modelled from the spec: the Climatology Predictor over the list of
per-year fetch results (spec section 4.3, absent from src/); failed years are
skipped and only the successful per-year averages enter the aggregate. -/
def predict_climatology (years : List (Option (List ℚ))) : Except ClimError Aggregate :=
  aggregate (years.filterMap perYearAvg)

/-- Thirty attempted years of which exactly three succeed, with per-year
averages 70, 72 and 68. -/
def demoYears : List (Option (List ℚ)) :=
  [some [70], some [72], some [68]] ++ List.replicate 27 none

/-! ## Trend Predictor -/

/-- Modelled from the spec: the DailySeries record of spec section 3; the
Trend Predictor that consumes it appears in none of the src/ files. -/
structure DailySeries where
  dates : List Int
  tmean : List ℚ
  tmax : List ℚ
  tmin : List ℚ
deriving Repr, DecidableEq

/-- The distinguishable failure of the Trend Predictor (spec sections 4.2
and 7). -/
inductive TrendError where
  | insufficientData
deriving Repr, DecidableEq

/-- The three trend labels of spec section 4.2. -/
inductive TrendLabel where
  | warming
  | cooling
  | stable
deriving Repr, DecidableEq

/-- The result of the Trend Predictor: the numeric PredictionResult fields
plus the trend label (spec sections 3 and 4.2). -/
structure TrendResult where
  point_estimate : ℚ
  range_low : ℚ
  range_high : ℚ
  label : TrendLabel
deriving Repr, DecidableEq

/-- Minimum of a list of rationals, 0 on the empty list. -/
def listMinD : List ℚ → ℚ
  | [] => 0
  | x :: xs => xs.foldl min x

/-- Maximum of a list of rationals, 0 on the empty list. -/
def listMaxD : List ℚ → ℚ
  | [] => 0
  | x :: xs => xs.foldl max x

/-- Modelled from the spec: `predict_trend` (spec section 4.2), absent from
src/.  Fewer than 3 samples fail with InsufficientDataError; otherwise the
final 3 mean temperatures give the label (a change of more than 3 degrees up
or down) and the point estimate, and the range comes from the min and max
temperature arrays of the full series. -/
def predict_trend (s : DailySeries) : Except TrendError TrendResult :=
  if s.tmean.length < 3 then .error .insufficientData
  else
    let last3 := s.tmean.drop (s.tmean.length - 3)
    let change := last3.getD 2 0 - last3.getD 0 0
    .ok ⟨last3.sum / 3, listMinD s.tmin, listMaxD s.tmax,
      if change > 3 then TrendLabel.warming
      else if change < -3 then TrendLabel.cooling
      else TrendLabel.stable⟩

/-- A two-sample daily series. -/
def demoShortSeries : DailySeries :=
  ⟨[0, 1], [50, 51], [55, 56], [45, 46]⟩

/-! ## Dispatch Policy -/

/-- Which predictor a query is routed to. -/
inductive Basis where
  | trend
  | climatology
deriving Repr, DecidableEq

/-- Modelled from the spec: the route chosen by the Dispatch Policy (spec
section 4.4) with its configuration constants.  The tiered near-future versus
far-future dispatch is in prototype files of the repository that are not
under src/: phase3.py line 23 only reads the days_ahead input and then runs a
single fixed pipeline for every value. -/
inductive Route where
  | trendRoute (trailing_window_days : Nat)
  | climatologyRoute (lookback_years : Nat) (window_days : Nat)
deriving Repr, DecidableEq

/-- The predictor a route belongs to. -/
def Route.basis : Route → Basis
  | .trendRoute _ => .trend
  | .climatologyRoute _ _ => .climatology

/-- Modelled from the spec: the Dispatch Policy (spec section 4.4, absent
from src/): days_ahead of at most 7 routes to the Trend Predictor on the
trailing 7-day window, anything larger to the Climatology Predictor with
lookback_years 30 and a 7-day-wide window. -/
def dispatch (days_ahead : Nat) : Route :=
  if days_ahead ≤ 7 then .trendRoute 7 else .climatologyRoute 30 7

/-! ## Date Horizon Classifier -/

/-- Modelled from the spec: the forms a natural-language time reference can
take for the Date Horizon Classifier (spec section 4.1), which is in none of
the src/ files (phase3.py replaces it with a numeric slider).  An absolute
date carries its day number so that its difference from today is the literal
day difference. -/
inductive RefText where
  | tomorrow
  | nextWeek
  | absoluteDate (day : Int)
  | empty
  | unparseable
deriving Repr, DecidableEq

/-- Modelled from the spec: `classify` (spec section 4.1, absent from src/):
tomorrow maps to 1, next week to 7, an absolute date to its literal day
difference from today with past dates treated as invalid (fallback 1), and
empty or unparseable text defaults to 1. -/
def classify (ref : RefText) (today : Int) : Int :=
  match ref with
  | .tomorrow => 1
  | .nextWeek => 7
  | .absoluteDate d => if d < today then 1 else d - today
  | .empty => 1
  | .unparseable => 1

/-! ## External fetch sites and their timeouts -/

/-- An HTTP fetch site of the two src/ files: the URL it targets and the
timeout argument passed to `requests.get`, `none` when the call passes no
timeout (the requests library then waits indefinitely). -/
structure HttpCall where
  url : String
  timeout : Option Nat
deriving Repr, DecidableEq

/-- actualphase4.py line 27: the geocoding fetch, with timeout 10. -/
def actualphase4_geocode_call : HttpCall :=
  ⟨"geocoding-api.open-meteo.com/v1/search", some 10⟩

/-- actualphase4.py line 74: the forecast fetch, with timeout 10. -/
def actualphase4_forecast_call : HttpCall :=
  ⟨"api.open-meteo.com/v1/forecast", some 10⟩

/-- phase3.py line 34: the geocoding fetch, with no timeout argument. -/
def phase3_geocode_call : HttpCall :=
  ⟨"geocoding-api.open-meteo.com/v1/search", none⟩

/-- phase3.py line 53: the archive fetch, with no timeout argument. -/
def phase3_archive_call : HttpCall :=
  ⟨"archive-api.open-meteo.com/v1/archive", none⟩

/-- The geocoding and weather-data fetches performed by the two src/ files
(the LLM calls are outside the prediction core). -/
def coreFetchCalls : List HttpCall :=
  [actualphase4_geocode_call, actualphase4_forecast_call,
   phase3_geocode_call, phase3_archive_call]

/-! ## Weather tool: actualphase4.py, get_current_and_forecast_weather
(lines 55-105) -/

/-- The current-conditions block of the forecast response; both fields are
read with `.get` and may be absent. -/
structure CurrentBlock where
  temperature_2m : Option ℚ
  wind_speed_10m : Option ℚ
deriving Repr, DecidableEq

/-- The daily block of the forecast response. -/
structure DailyBlock where
  time : List String
  temperature_2m_max : List ℚ
  temperature_2m_min : List ℚ
deriving Repr, DecidableEq

/-- A parsed forecast response body. -/
structure ForecastData where
  current : CurrentBlock
  daily : DailyBlock
deriving Repr, DecidableEq

/-- Outcome of the forecast HTTP request as the try block of
`get_current_and_forecast_weather` observes it: any raised exception
(network, HTTP status, JSON decoding) or a parsed body. -/
inductive FetchOutcome where
  | exception (msg : String)
  | ok (data : ForecastData)
deriving Repr, DecidableEq

/-- One entry of the seven_day_forecast list (actualphase4.py lines 87-91). -/
structure ForecastEntry where
  date : String
  max_temp : ℚ
  min_temp : ℚ
deriving Repr, DecidableEq

/-- The forecast-building loop body of actualphase4.py lines 86-91 over a
given list of indices; a `none` result models the IndexError raised when a
temperature array is shorter than an index the loop uses (that exception is
caught by the enclosing except clause). -/
def forecastsGo (daily : DailyBlock) : List Nat → Option (List ForecastEntry)
  | [] => some []
  | i :: is =>
    (daily.time[i]?).bind fun d =>
      (daily.temperature_2m_max[i]?).bind fun mx =>
        (daily.temperature_2m_min[i]?).bind fun mn =>
          (forecastsGo daily is).map fun rest => ⟨d, mx, mn⟩ :: rest

/-- The seven_day_forecast list of actualphase4.py lines 85-91: the loop runs
over `range(min(7, len(daily.get("time", []))))`. -/
def buildForecasts (daily : DailyBlock) : Option (List ForecastEntry) :=
  forecastsGo daily (List.range (min 7 daily.time.length))

/-- The JSON string `get_current_and_forecast_weather` returns: every path
serializes either an error object or the structured success payload. -/
inductive WeatherReply where
  | errorObj (error : String)
  | success (city : String) (unitSymbol : String) (current : CurrentBlock)
      (seven_day_forecast : List ForecastEntry)
deriving Repr, DecidableEq

/-- Embedding of `get_current_and_forecast_weather` (actualphase4.py lines
55-105); the geocoding response and the forecast fetch outcome stand for the
two external requests the function performs.  The function is total,
mirroring that every exception of the Python try block is caught and turned
into an error object. -/
def get_current_and_forecast_weather (city units : String)
    (geo : GeoResponse) (fetch : FetchOutcome) : WeatherReply :=
  if units ≠ "celsius" ∧ units ≠ "fahrenheit" then
    .errorObj "Invalid units. Must be celsius or fahrenheit."
  else if (geocode_city geo).1 = none then
    .errorObj ("Could not find coordinates for city: " ++ city)
  else
    match fetch with
    | .exception e => .errorObj ("Error fetching weather data: " ++ e)
    | .ok data =>
      match buildForecasts data.daily with
      | none => .errorObj "Error fetching weather data: list index out of range"
      | some fs =>
        .success city (if units = "fahrenheit" then "F" else "C") data.current fs

/-- A concrete two-day daily block. -/
def demoDaily : DailyBlock :=
  ⟨["2025-01-01", "2025-01-02"], [10, 11], [1, 2]⟩

/-- A candidate with a small population, listed first. -/
def candA : Candidate := ⟨"Smallville", some 10, some 1, some 2⟩

/-- A candidate with a large population, listed second. -/
def candB : Candidate := ⟨"Bigtown", some 1000, some 3, some 4⟩

/-! ## Lemmas about the selection loop of geocode_city -/

/-- If no remaining candidate beats the running maximum, the selection loop
leaves the accumulator unchanged. -/
theorem selectStep_stay (b : Candidate) (p : Int) :
    ∀ (cs : List Candidate), (∀ c ∈ cs, (c.pop : Int) ≤ p) →
      cs.foldl selectStep (some b, p) = (some b, p) := by
  intro cs
  induction cs with
  | nil => intro _; rfl
  | cons c cs ih =>
    intro h
    rw [List.foldl_cons]
    have hc : ¬ ((c.pop : Int) > p) := not_lt.mpr (h c (List.mem_cons_self c cs))
    have hstep : selectStep (some b, p) c = (some b, p) := by
      simp only [selectStep]
      rw [if_neg hc]
    rw [hstep]
    exact ih fun d hd => h d (List.mem_cons_of_mem c hd)

/-- Invariant of the selection loop: started from a candidate and its
population, it ends on a candidate of maximal population among the start and
the rest of the list. -/
theorem foldl_select_spec :
    ∀ (cs : List Candidate) (b : Candidate),
      ∃ b2, cs.foldl selectStep (some b, (b.pop : Int)) = (some b2, (b2.pop : Int)) ∧
        (b2 = b ∨ b2 ∈ cs) ∧ b.pop ≤ b2.pop ∧ ∀ c ∈ cs, c.pop ≤ b2.pop := by
  intro cs
  induction cs with
  | nil =>
    intro b
    exact ⟨b, rfl, Or.inl rfl, le_refl _, by simp⟩
  | cons c cs ih =>
    intro b
    rw [List.foldl_cons]
    by_cases h : (c.pop : Int) > (b.pop : Int)
    · have hstep : selectStep (some b, (b.pop : Int)) c = (some c, (c.pop : Int)) := by
        simp only [selectStep]
        rw [if_pos h]
      rw [hstep]
      obtain ⟨b2, h1, h2, h3, h4⟩ := ih c
      have hbc : b.pop ≤ c.pop := le_of_lt (by exact_mod_cast h)
      refine ⟨b2, h1, ?_, le_trans hbc h3, ?_⟩
      · rcases h2 with rfl | h2
        · exact Or.inr (List.mem_cons_self _ _)
        · exact Or.inr (List.mem_cons_of_mem _ h2)
      · intro d hd
        rcases List.mem_cons.mp hd with rfl | hd2
        · exact h3
        · exact h4 d hd2
    · have hstep : selectStep (some b, (b.pop : Int)) c = (some b, (b.pop : Int)) := by
        simp only [selectStep]
        rw [if_neg h]
      rw [hstep]
      obtain ⟨b2, h1, h2, h3, h4⟩ := ih b
      have hcb : c.pop ≤ b.pop := by exact_mod_cast not_lt.mp h
      refine ⟨b2, h1, ?_, h3, ?_⟩
      · rcases h2 with rfl | h2
        · exact Or.inl rfl
        · exact Or.inr (List.mem_cons_of_mem _ h2)
      · intro d hd
        rcases List.mem_cons.mp hd with rfl | hd2
        · exact le_trans hcb h3
        · exact h4 d hd2

/-- On a nonempty list the selection loop returns a member of maximal
population. -/
theorem selectBest_spec_cons (c : Candidate) (cs : List Candidate) :
    ∃ b, selectBest (c :: cs) = some b ∧ b ∈ c :: cs ∧
      ∀ d ∈ c :: cs, d.pop ≤ b.pop := by
  unfold selectBest
  rw [List.foldl_cons]
  have hpos : (c.pop : Int) > -1 := by
    have h0 : (0 : Int) ≤ (c.pop : Int) := Int.natCast_nonneg _
    omega
  have hstep : selectStep (none, -1) c = (some c, (c.pop : Int)) := by
    simp only [selectStep]
    rw [if_pos hpos]
  rw [hstep]
  obtain ⟨b2, h1, h2, h3, h4⟩ := foldl_select_spec cs c
  rw [h1]
  refine ⟨b2, rfl, ?_, ?_⟩
  · rcases h2 with rfl | h2
    · exact List.mem_cons_self _ _
    · exact List.mem_cons_of_mem _ h2
  · intro d hd
    rcases List.mem_cons.mp hd with rfl | hd2
    · exact h3
    · exact h4 d hd2

/-- When every later candidate has the same population as the head, the
strict comparison never fires and the head is selected. -/
theorem selectBest_all_eq (c : Candidate) (cs : List Candidate)
    (h : ∀ d ∈ cs, d.pop = c.pop) :
    selectBest (c :: cs) = some c := by
  unfold selectBest
  rw [List.foldl_cons]
  have hpos : (c.pop : Int) > -1 := by
    have h0 : (0 : Int) ≤ (c.pop : Int) := Int.natCast_nonneg _
    omega
  have hstep : selectStep (none, -1) c = (some c, (c.pop : Int)) := by
    simp only [selectStep]
    rw [if_pos hpos]
  rw [hstep, selectStep_stay c (c.pop : Int) cs fun d hd => le_of_eq (by rw [h d hd])]

/-! ## Lemmas about list folds with min and max -/

/-- A left fold with min lands on an element of the list (head included). -/
theorem foldl_min_mem : ∀ (as : List ℚ) (a : ℚ), as.foldl min a ∈ a :: as := by
  intro as
  induction as with
  | nil => intro a; exact List.mem_cons_self a []
  | cons b bs ih =>
    intro a
    rw [List.foldl_cons]
    have h := ih (min a b)
    rcases List.mem_cons.mp h with heq | hmem
    · rw [heq]
      rcases min_choice a b with h2 | h2 <;> rw [h2] <;> simp
    · exact List.mem_cons_of_mem a (List.mem_cons_of_mem b hmem)

/-- A left fold with min is a lower bound of the list (head included). -/
theorem foldl_min_le : ∀ (as : List ℚ) (a : ℚ), ∀ x ∈ a :: as, as.foldl min a ≤ x := by
  intro as
  induction as with
  | nil =>
    intro a x hx
    have : x = a := by simpa using hx
    subst this
    simp
  | cons b bs ih =>
    intro a x hx
    rw [List.foldl_cons]
    have hmin : bs.foldl min (min a b) ≤ min a b :=
      ih (min a b) (min a b) (List.mem_cons_self _ _)
    rcases List.mem_cons.mp hx with heq | hx2
    · rw [heq]
      exact le_trans hmin (min_le_left a b)
    · rcases List.mem_cons.mp hx2 with heq | hx3
      · rw [heq]
        exact le_trans hmin (min_le_right a b)
      · exact ih (min a b) x (List.mem_cons_of_mem _ hx3)

/-- A left fold with max lands on an element of the list (head included). -/
theorem foldl_max_mem : ∀ (as : List ℚ) (a : ℚ), as.foldl max a ∈ a :: as := by
  intro as
  induction as with
  | nil => intro a; exact List.mem_cons_self a []
  | cons b bs ih =>
    intro a
    rw [List.foldl_cons]
    have h := ih (max a b)
    rcases List.mem_cons.mp h with heq | hmem
    · rw [heq]
      rcases max_choice a b with h2 | h2 <;> rw [h2] <;> simp
    · exact List.mem_cons_of_mem a (List.mem_cons_of_mem b hmem)

/-- A left fold with max is an upper bound of the list (head included). -/
theorem foldl_max_le : ∀ (as : List ℚ) (a : ℚ), ∀ x ∈ a :: as, x ≤ as.foldl max a := by
  intro as
  induction as with
  | nil =>
    intro a x hx
    have : x = a := by simpa using hx
    subst this
    simp
  | cons b bs ih =>
    intro a x hx
    rw [List.foldl_cons]
    have hmax : max a b ≤ bs.foldl max (max a b) :=
      ih (max a b) (max a b) (List.mem_cons_self _ _)
    rcases List.mem_cons.mp hx with heq | hx2
    · rw [heq]
      exact le_trans (le_max_left a b) hmax
    · rcases List.mem_cons.mp hx2 with heq | hx3
      · rw [heq]
        exact le_trans (le_max_right a b) hmax
      · exact ih (max a b) x (List.mem_cons_of_mem _ hx3)

/-! ## Lemma about the forecast loop -/

/-- When the forecast loop completes, it yields one entry per index. -/
theorem forecastsGo_length (daily : DailyBlock) :
    ∀ (idxs : List Nat) (fs : List ForecastEntry),
      forecastsGo daily idxs = some fs → fs.length = idxs.length := by
  intro idxs
  induction idxs with
  | nil =>
    intro fs h
    simp only [forecastsGo, Option.some.injEq] at h
    subst h
    rfl
  | cons i is ih =>
    intro fs h
    simp only [forecastsGo, Option.bind_eq_some, Option.map_eq_some'] at h
    obtain ⟨d, hd, mx, hmx, mn, hmn, rest, hrest, hfs⟩ := h
    subst hfs
    simp only [List.length_cons, ih rest hrest]

/-! ## Claim theorems -/

/-- Claim C1: the dispatch policy routes every days_ahead of at most 7 to the
Trend Predictor over the trailing 7-day window and every larger days_ahead to
the Climatology Predictor with lookback_years 30 and window_days 7; in
particular days_ahead 7 routes to trend and days_ahead 8 to climatology. -/
theorem dispatch_policy_routes (d : Nat) :
    ((dispatch d).basis = Basis.trend ↔ d ≤ 7) ∧
    ((dispatch d).basis = Basis.climatology ↔ 7 < d) ∧
    dispatch 7 = Route.trendRoute 7 ∧
    dispatch 8 = Route.climatologyRoute 30 7 := by
  by_cases h : d ≤ 7
  · refine ⟨?_, ?_, rfl, rfl⟩
    · simp only [dispatch, if_pos h, Route.basis]
      exact iff_of_true trivial h
    · simp only [dispatch, if_pos h, Route.basis]
      exact iff_of_false (fun hc => Basis.noConfusion hc) (by omega)
  · refine ⟨?_, ?_, rfl, rfl⟩
    · simp only [dispatch, if_neg h, Route.basis]
      exact iff_of_false (fun hc => Basis.noConfusion hc) h
    · simp only [dispatch, if_neg h, Route.basis]
      exact iff_of_true trivial (by omega)

/-- Witness for C1, instantiated at the dispatch boundary days_ahead 7. -/
theorem dispatch_policy_routes_witness :
    ((dispatch 7).basis = Basis.trend ↔ 7 ≤ 7) ∧
    ((dispatch 7).basis = Basis.climatology ↔ 7 < 7) ∧
    dispatch 7 = Route.trendRoute 7 ∧
    dispatch 8 = Route.climatologyRoute 30 7 :=
  dispatch_policy_routes 7

/-- Claim C2 counterexample: the phase3.py geocoding step (lines 41-43) takes
the first candidate of the results list even when a later candidate has a
strictly higher population, so not every geocoding path of the repository
selects the highest-population match. -/
theorem geocoder_highest_population_cex :
    phase3_geocode (some [candA, candB]) = Phase3GeoResult.located candA ∧
    candB ∈ [candA, candB] ∧
    candA.pop < candB.pop := by
  refine ⟨rfl, ?_, ?_⟩
  · simp
  · decide

/-- Claim C2 (amended): for every nonempty candidate list, geocode_city in
actualphase4.py selects a candidate of maximal population and the first
candidate when all populations are equal or absent, while the phase3.py
geocoding step always selects the first candidate regardless of population. -/
theorem geocoder_selection_amended (cs : List Candidate) (h : cs ≠ []) :
    (∃ b, selectBest cs = some b ∧ b ∈ cs ∧ (∀ d ∈ cs, d.pop ≤ b.pop) ∧
      geocode_city (GeoResponse.ok (some cs)) = (b.latitude, b.longitude)) ∧
    ∀ c cs2, cs = c :: cs2 →
      ((∀ d ∈ cs2, d.pop = c.pop) → selectBest cs = some c) ∧
      phase3_geocode (some cs) = Phase3GeoResult.located c := by
  obtain ⟨c, cs2, rfl⟩ := List.exists_cons_of_ne_nil h
  constructor
  · obtain ⟨b, h1, h2, h3⟩ := selectBest_spec_cons c cs2
    refine ⟨b, h1, h2, h3, ?_⟩
    simp only [geocode_city]
    rw [if_neg (by simp), h1]
  · intro c2 cs3 heq
    injection heq with heq1 heq2
    subst heq1
    subst heq2
    exact ⟨fun hall => selectBest_all_eq _ _ hall, rfl⟩

/-- Witness for the amended C2 at a concrete two-candidate list. -/
theorem geocoder_selection_amended_witness :
    (∃ b, selectBest [candA, candB] = some b ∧ b ∈ [candA, candB] ∧
      (∀ d ∈ [candA, candB], d.pop ≤ b.pop) ∧
      geocode_city (GeoResponse.ok (some [candA, candB])) = (b.latitude, b.longitude)) ∧
    ∀ c cs2, [candA, candB] = c :: cs2 →
      ((∀ d ∈ cs2, d.pop = c.pop) → selectBest [candA, candB] = some c) ∧
      phase3_geocode (some [candA, candB]) = Phase3GeoResult.located c :=
  geocoder_selection_amended [candA, candB] (by simp)

/-- Claim C3: with at least one successful year the climatology aggregate has
the arithmetic mean of the per-year averages as its point estimate and their
minimum and maximum as its range bounds; missing years are skipped and cause
no failure. -/
theorem climatology_aggregate_mean_min_max (years : List (Option (List ℚ)))
    (a : ℚ) (as : List ℚ) (h : years.filterMap perYearAvg = a :: as) :
    ∃ agg, predict_climatology years = Except.ok agg ∧
      agg.point_estimate = (a :: as).sum / ((a :: as).length : ℚ) ∧
      agg.range_low ∈ a :: as ∧ (∀ x ∈ a :: as, agg.range_low ≤ x) ∧
      agg.range_high ∈ a :: as ∧ (∀ x ∈ a :: as, x ≤ agg.range_high) := by
  refine ⟨⟨(a :: as).sum / ((a :: as).length : ℚ), as.foldl min a, as.foldl max a⟩,
    ?_, rfl, ?_, ?_, ?_, ?_⟩
  · unfold predict_climatology
    rw [h]
    rfl
  · exact foldl_min_mem as a
  · exact foldl_min_le as a
  · exact foldl_max_mem as a
  · exact foldl_max_le as a

/-- Witness for C3: thirty attempted years with successful per-year averages
70, 72 and 68 give point estimate 70 and range 68 to 72, despite the other
27 years being missing. -/
theorem climatology_aggregate_witness :
    predict_climatology demoYears = Except.ok ⟨70, 68, 72⟩ ∧
    ∃ agg, predict_climatology demoYears = Except.ok agg ∧
      agg.point_estimate = ([70, 72, 68] : List ℚ).sum / (([70, 72, 68] : List ℚ).length : ℚ) ∧
      agg.range_low ∈ ([70, 72, 68] : List ℚ) ∧
      (∀ x ∈ ([70, 72, 68] : List ℚ), agg.range_low ≤ x) ∧
      agg.range_high ∈ ([70, 72, 68] : List ℚ) ∧
      (∀ x ∈ ([70, 72, 68] : List ℚ), x ≤ agg.range_high) :=
  ⟨by norm_num [predict_climatology, demoYears, perYearAvg, aggregate, List.replicate,
      List.filterMap_cons, List.filterMap_nil, min_def, max_def],
   climatology_aggregate_mean_min_max demoYears 70 [72, 68]
    (by norm_num [demoYears, perYearAvg, List.replicate, List.filterMap_cons,
      List.filterMap_nil])⟩

/-- Claim C4 (code bug): on an archive response whose daily block carries an
empty temperature list — zero usable days of history — phase3.py line 63
divides by the length 0 and raises an unhandled ZeroDivisionError instead of
a distinguishable insufficient-history failure; only the missing-daily-key
response is handled, and with a generic stop rather than an
InsufficientHistoryError. -/
theorem phase3_zero_data_crash :
    phase3_weather_stats (some []) = Phase3WeatherResult.zeroDivCrash ∧
    phase3_weather_stats none = Phase3WeatherResult.noDataStop :=
  ⟨rfl, rfl⟩

/-- Claim C5: classify returns days_ahead 1 for empty, unparseable and
past-date references, and its result is never negative; the function is
total, so it never fails. -/
theorem classify_fallback_nonnegative (today : Int) :
    classify RefText.empty today = 1 ∧
    classify RefText.unparseable today = 1 ∧
    (∀ d, d < today → classify (RefText.absoluteDate d) today = 1) ∧
    ∀ r, 0 ≤ classify r today := by
  refine ⟨rfl, rfl, ?_, ?_⟩
  · intro d hd
    simp only [classify]
    rw [if_pos hd]
  · intro r
    cases r with
    | tomorrow => exact (by norm_num : (0 : Int) ≤ 1)
    | nextWeek => exact (by norm_num : (0 : Int) ≤ 7)
    | absoluteDate d =>
      simp only [classify]
      by_cases hd : d < today
      · rw [if_pos hd]
        norm_num
      · rw [if_neg hd]
        omega
    | empty => exact (by norm_num : (0 : Int) ≤ 1)
    | unparseable => exact (by norm_num : (0 : Int) ≤ 1)

/-- Witness for C5 at a concrete past absolute date. -/
theorem classify_fallback_witness :
    classify (RefText.absoluteDate 50) 100 = 1 ∧ 0 ≤ classify RefText.tomorrow 100 :=
  ⟨(classify_fallback_nonnegative 100).2.2.1 50 (by decide),
   (classify_fallback_nonnegative 100).2.2.2 RefText.tomorrow⟩

/-- Claim C6 counterexample: not every external fetch of the core passes a
timeout — the phase3.py geocoding fetch (line 34) passes none, so it can
block indefinitely. -/
theorem fetch_timeout_cex :
    ¬ ∀ c ∈ coreFetchCalls, ∃ t, c.timeout = some t := by
  intro hall
  obtain ⟨t, ht⟩ := hall phase3_geocode_call (by simp [coreFetchCalls])
  simp [phase3_geocode_call] at ht

/-- Claim C6 (amended): the two actualphase4.py fetches are bounded by the
fixed timeout 10, while the two phase3.py fetches pass no timeout at all. -/
theorem fetch_timeouts_amended :
    actualphase4_geocode_call.timeout = some 10 ∧
    actualphase4_forecast_call.timeout = some 10 ∧
    phase3_geocode_call.timeout = none ∧
    phase3_archive_call.timeout = none :=
  ⟨rfl, rfl, rfl, rfl⟩

/-- Claim C7: a DailySeries with fewer than 3 samples makes predict_trend
fail with InsufficientDataError, and at least 3 samples always yield a
result. -/
theorem predict_trend_insufficient_data (s : DailySeries) :
    (s.tmean.length < 3 → predict_trend s = Except.error TrendError.insufficientData) ∧
    (3 ≤ s.tmean.length → ∃ r, predict_trend s = Except.ok r) := by
  constructor
  · intro h
    unfold predict_trend
    rw [if_pos h]
  · intro h
    unfold predict_trend
    rw [if_neg (by omega)]
    exact ⟨_, rfl⟩

/-- Witness for C7 on a concrete two-sample series. -/
theorem predict_trend_insufficient_data_witness :
    predict_trend demoShortSeries = Except.error TrendError.insufficientData :=
  (predict_trend_insufficient_data demoShortSeries).1 (by decide)

/-- Claim C8: geocode_city returns the pair of two nones on a failed request,
on a JSON decoding failure, on a missing results key and on an empty results
list; the embedding is a total function, mirroring that none of these paths
raises. -/
theorem geocode_city_error_paths :
    (∀ m, geocode_city (GeoResponse.requestError m) = (none, none)) ∧
    (∀ m, geocode_city (GeoResponse.jsonError m) = (none, none)) ∧
    geocode_city (GeoResponse.ok none) = (none, none) ∧
    geocode_city (GeoResponse.ok (some [])) = (none, none) :=
  ⟨fun _ => rfl, fun _ => rfl, rfl, rfl⟩

/-- Witness for C8 at concrete error messages. -/
theorem geocode_city_error_paths_witness :
    geocode_city (GeoResponse.requestError "timed out") = (none, none) ∧
    geocode_city (GeoResponse.jsonError "bad body") = (none, none) :=
  ⟨geocode_city_error_paths.1 "timed out", geocode_city_error_paths.2.1 "bad body"⟩

/-- Claim C9: get_current_and_forecast_weather always returns one of the two
serializable reply forms (it is a total function, so it never raises);
invalid units yield an error object, an unresolvable city yields an error
object, and an exception during the weather fetch yields an error object. -/
theorem weather_tool_never_raises (city units : String)
    (geo : GeoResponse) (f : FetchOutcome) :
    ((∃ m, get_current_and_forecast_weather city units geo f = WeatherReply.errorObj m) ∨
      (∃ c u cur fs,
        get_current_and_forecast_weather city units geo f = WeatherReply.success c u cur fs)) ∧
    (units ≠ "celsius" → units ≠ "fahrenheit" →
      get_current_and_forecast_weather city units geo f =
        WeatherReply.errorObj "Invalid units. Must be celsius or fahrenheit.") ∧
    ((units = "celsius" ∨ units = "fahrenheit") → (geocode_city geo).1 = none →
      get_current_and_forecast_weather city units geo f =
        WeatherReply.errorObj ("Could not find coordinates for city: " ++ city)) ∧
    (∀ e, (units = "celsius" ∨ units = "fahrenheit") → (geocode_city geo).1 ≠ none →
      f = FetchOutcome.exception e →
      get_current_and_forecast_weather city units geo f =
        WeatherReply.errorObj ("Error fetching weather data: " ++ e)) := by
  refine ⟨?_, ?_, ?_, ?_⟩
  · cases hr : get_current_and_forecast_weather city units geo f with
    | errorObj m => exact Or.inl ⟨m, rfl⟩
    | success c u cur fs => exact Or.inr ⟨c, u, cur, fs, rfl⟩
  · intro h1 h2
    unfold get_current_and_forecast_weather
    rw [if_pos ⟨h1, h2⟩]
  · intro hu hg
    have hcond : ¬ (units ≠ "celsius" ∧ units ≠ "fahrenheit") := by
      rcases hu with rfl | rfl
      · exact fun hc => hc.1 rfl
      · exact fun hc => hc.2 rfl
    unfold get_current_and_forecast_weather
    rw [if_neg hcond, if_pos hg]
  · intro e hu hg hf
    have hcond : ¬ (units ≠ "celsius" ∧ units ≠ "fahrenheit") := by
      rcases hu with rfl | rfl
      · exact fun hc => hc.1 rfl
      · exact fun hc => hc.2 rfl
    subst hf
    unfold get_current_and_forecast_weather
    rw [if_neg hcond, if_neg hg]

/-- Witness for C9 at a concrete invalid-units call. -/
theorem weather_tool_never_raises_witness :
    get_current_and_forecast_weather "Paris" "kelvin"
        (GeoResponse.ok none) (FetchOutcome.exception "boom") =
      WeatherReply.errorObj "Invalid units. Must be celsius or fahrenheit." :=
  (weather_tool_never_raises "Paris" "kelvin"
    (GeoResponse.ok none) (FetchOutcome.exception "boom")).2.1 (by decide) (by decide)

/-- Claim C10: the seven-day forecast list never has more than 7 entries and
the construction loop only uses indices below the length of the daily time
array, its bound being the minimum of 7 and that length. -/
theorem seven_day_forecast_bounded (daily : DailyBlock) :
    (∀ fs, buildForecasts daily = some fs → fs.length ≤ 7) ∧
    ∀ i ∈ List.range (min 7 daily.time.length), i < daily.time.length := by
  constructor
  · intro fs h
    have hl : fs.length = (List.range (min 7 daily.time.length)).length :=
      forecastsGo_length daily _ fs h
    rw [List.length_range] at hl
    rw [hl]
    exact Nat.min_le_left _ _
  · intro i hi
    rw [List.mem_range] at hi
    exact lt_of_lt_of_le hi (Nat.min_le_right _ _)

/-- Witness for C10 on a concrete two-day daily block. -/
theorem seven_day_forecast_bounded_witness :
    (([⟨"2025-01-01", 10, 1⟩, ⟨"2025-01-02", 11, 2⟩] : List ForecastEntry).length ≤ 7) ∧
    0 < demoDaily.time.length :=
  ⟨(seven_day_forecast_bounded demoDaily).1 _ (by rfl),
   (seven_day_forecast_bounded demoDaily).2 0 (by decide)⟩

end Lab3
